import Mathlib

/-!
Verification of the pymed PubMed API client (`pymed/api.py`).

The Python source is shallowly embedded: query-parameter dictionaries become
insertion-ordered association lists with Python-dict update semantics, the
network is an oracle (responses are passed in as values), mutation of the
`PubMed` object becomes explicit state passing, and raised exceptions become
error values.  Timestamps are natural numbers in milliseconds, so the
`datetime.timedelta(seconds=1)` window of the rate limiter is 1000 units.
-/

set_option autoImplicit false

/-- A value stored in a query-parameter dictionary: the Python code stores
strings and non-negative integers. -/
inductive Val where
  | str (s : String)
  | num (n : Nat)
deriving DecidableEq, Repr

/-- A Python dict of request parameters, as an insertion-ordered
association list (Python 3 dicts preserve insertion order and never hold
duplicate keys). -/
abbrev Params := List (String × Val)

/-- `d[k] = v` on a Python dict: replace the entry in place if the key is
present (keys are unique, so replacing the first occurrence), append at
the end otherwise. -/
def dictSet (d : Params) (k : String) (v : Val) : Params :=
  match d with
  | [] => [(k, v)]
  | (k', v') :: rest => if k' = k then (k, v) :: rest else (k', v') :: dictSet rest k v

/-- `d.get(k)` on a Python dict: the (unique) entry for `k`, if present. -/
def dictGet (d : Params) (k : String) : Option Val :=
  match d with
  | [] => none
  | (k', v') :: rest => if k' = k then some v' else dictGet rest k

/-- One HTTP GET issued by `PubMed._get`: the URL path below the base URL,
the final parameter dictionary (after `_get` injects `retmode`), and the
requested output format. -/
structure Request where
  url : String
  params : Params
  output : String
deriving DecidableEq, Repr

/-- `PubMed._get` sets `parameters["retmode"] = output` before issuing the
GET; this builds the request it sends. -/
def mkGetRequest (url : String) (params : Params) (output : String) : Request :=
  { url := url, params := dictSet params "retmode" (.str output), output := output }

/-- The errors the client can raise, per the spec's taxonomy: a failed
HTTP status check (`response.raise_for_status()`), and a missing
`QueryKey`/`WebEnv` token in a parsed search response (an `IndexError`
on `root.xpath(...)[0]` in the source). -/
inductive PubMedError where
  | transportError
  | protocolError
deriving DecidableEq, Repr

/-- The `{"query_key": ..., "WebEnv": ...}` dict returned by
`PubMed._getPubMedData`. -/
structure SessionHandle where
  query_key : String
  WebEnv : String
deriving DecidableEq, Repr

/-- Abstraction of a parsed esearch XML response: the text of the
`QueryKey` elements and of the `WebEnv` elements, each list in the order
`root.xpath(".//QueryKey")` / `root.xpath(".//WebEnv")` returns them. -/
structure SearchXml where
  queryKeys : List String
  webEnvs : List String
deriving DecidableEq, Repr

/-- Abstraction of a parsed esearch JSON response: the integer `count`
field and the `idlist` field of `esearchresult`. -/
structure ESearchJson where
  count : Nat
  idlist : List String
deriving DecidableEq, Repr

/-- An XML element tree: a tag and the list of child elements (text
content is irrelevant to the fetch loop being modelled). -/
inductive XmlTree where
  | elem (tag : String) (children : List XmlTree)

mutual

/-- lxml's `root.iter(tag)`: all elements of the tree with the given tag,
in document (pre-)order, the root included. -/
def iterTag (tag : String) : XmlTree → List XmlTree
  | .elem t cs =>
      (if t = tag then [XmlTree.elem t cs] else []) ++ iterTagList tag cs

/-- `iterTag` mapped over a forest of sibling trees, left to right. -/
def iterTagList (tag : String) : List XmlTree → List XmlTree
  | [] => []
  | c :: cs => iterTag tag c ++ iterTagList tag cs

end

/-- A decoded record: `PubMedArticle(xml_element=...)` or
`PubMedBookArticle(xml_element=...)`.  Decoding itself is the external
collaborator, so a record just wraps the XML node it was built from. -/
inductive Record where
  | article (e : XmlTree)
  | book (e : XmlTree)

/-- Whether a record was produced by the `PubmedArticle` loop. -/
def isArticleRec : Record → Bool
  | .article _ => true
  | .book _ => false

/-- Whether a record was produced by the `PubmedBookArticle` loop. -/
def isBookRec : Record → Bool
  | .article _ => false
  | .book _ => true

/-- The state of a `PubMed` object.  `tool`, `email`, `api_key`,
`rateLimitVal` (`self._rateLimit`), `requestsMade` and `parameters` are
set by `__init__`; `query_data` and `articles` are attributes assigned by
`query` (absent / empty before the first call). -/
structure PubMed where
  tool : String
  email : String
  api_key : Option String
  rateLimitVal : Nat
  requestsMade : List Nat
  parameters : Params
  query_data : Option SessionHandle
  articles : List Record

/-- `PubMed.__init__`: stores the inputs, sets the rate limit to 3 with an
empty request list, and builds the default parameter dict
`{"tool": tool, "email": email, "db": "pubmed"}`, adding `api_key` only
when one is provided. -/
def PubMed.init (tool email : String) (api_key : Option String) : PubMed :=
  { tool := tool
    email := email
    api_key := api_key
    rateLimitVal := 3
    requestsMade := []
    parameters :=
      let base : Params := [("tool", .str tool), ("email", .str email), ("db", .str "pubmed")]
      match api_key with
      | some k => dictSet base "api_key" (.str k)
      | none => base
    query_data := none
    articles := [] }

/-- The pruning step of `PubMed._exceededRateLimit`: keep only the request
timestamps strictly younger than one second (1000 ms), i.e. those with
`requestTime > now - 1s`. -/
def pruneRequests (now : Nat) (reqs : List Nat) : List Nat :=
  reqs.filter (fun t => decide (now < t + 1000))

/-- `PubMed._exceededRateLimit` after its pruning step: true iff strictly
more requests than the rate limit were made in the last second. -/
def exceededRateLimit (limit now : Nat) (reqs : List Nat) : Bool :=
  decide (limit < (pruneRequests now reqs).length)

/-- `PubMed._exceededRateLimit` as a state transformer: prunes
`self._requestsMade` in place and returns the boolean check. -/
def PubMed.exceededRateLimitCheck (st : PubMed) (now : Nat) : PubMed × Bool :=
  ({ st with requestsMade := pruneRequests now st.requestsMade },
   exceededRateLimit st.rateLimitVal now st.requestsMade)

/-- `PubMed.split_range(max)`: Python's
`[(i, min(i + 10_000, max)) for i in range(0, max, 10_000)]`, where
`range(0, max, 10_000)` has `⌈max / 10000⌉` elements. -/
def split_range (mx : Nat) : List (Nat × Nat) :=
  (List.range ((mx + 9999) / 10000)).map
    (fun i => (10000 * i, min (10000 * i + 10000) mx))

/-- The fetch windows `(start, end)` issued by `PubMed.query`: one
`_getArticlesEnv(start, end)` call per element.  The source branches on
`max_results > 10_000`, calling `split_range(max=max_results)` in the
first branch and a single `_getArticlesEnv(start=0, end=max_results)` in
the second. -/
def queryWindows (max_results : Nat) : List (Nat × Nat) :=
  if 10000 < max_results then split_range max_results else [(0, max_results)]

/-- Whether some window of `ws` contains the index `n`. -/
def covers (ws : List (Nat × Nat)) (n : Nat) : Bool :=
  ws.any (fun w => decide (w.1 ≤ n) && decide (n < w.2))

/-- The esearch request built by `PubMed._getPubMedData`: the default
parameters copied and extended with `term`, `usehistory = "y"` and
`retmax = max_results`, sent with output format `"xml"`. -/
def getPubMedDataRequest (st : PubMed) (query : String) (max_results : Nat) : Request :=
  let p := dictSet st.parameters "term" (.str query)
  let p := dictSet p "usehistory" (.str "y")
  let p := dictSet p "retmax" (.num max_results)
  mkGetRequest "/entrez/eutils/esearch.fcgi" p "xml"

/-- The token extraction of `PubMed._getPubMedData`:
`root.xpath(".//QueryKey")[0].text` and `root.xpath(".//WebEnv")[0].text`.
A missing token makes the `[0]` subscript raise, modelled as
`protocolError`. -/
def sessionExtract (resp : SearchXml) : Except PubMedError SessionHandle :=
  match resp.queryKeys with
  | [] => .error .protocolError
  | qk :: _ =>
    match resp.webEnvs with
    | [] => .error .protocolError
    | we :: _ => .ok { query_key := qk, WebEnv := we }

/-- The efetch request built by `PubMed._getArticlesEnv(query_data, start, end)`:
the default parameters copied and extended with the session tokens and
`retmax = end`, `retstart = start` (verbatim from the source: `retmax`
gets the window's `end` bound, not its width), sent as XML. -/
def getArticlesEnvRequest (st : PubMed) (query_data : SessionHandle)
    (start fin : Nat) : Request :=
  let p := dictSet st.parameters "query_key" (.str query_data.query_key)
  let p := dictSet p "WebEnv" (.str query_data.WebEnv)
  let p := dictSet p "retmax" (.num fin)
  let p := dictSet p "retstart" (.num start)
  mkGetRequest "/entrez/eutils/efetch.fcgi" p "xml"

/-- The record stream of `PubMed._getArticlesEnv` for one window's parsed
response: a first `for` loop yields a `PubMedArticle` for every
`PubmedArticle` element (document order), then a second loop yields a
`PubMedBookArticle` for every `PubmedBookArticle` element (document
order). -/
def getArticlesEnvYield (root : XmlTree) : List Record :=
  (iterTag "PubmedArticle" root).map Record.article ++
    (iterTag "PubmedBookArticle" root).map Record.book

/-- The esearch request built by `PubMed.getTotalResultsCount`: the
default parameters copied and extended with `term` and `retmax = 1`,
sent with the default output format `"json"`. -/
def getTotalResultsCountRequest (st : PubMed) (query : String) : Request :=
  let p := dictSet st.parameters "term" (.str query)
  let p := dictSet p "retmax" (.num 1)
  mkGetRequest "/entrez/eutils/esearch.fcgi" p "json"

/-- The full request trace of `PubMed.getTotalResultsCount`: the single
`_get` call it makes. -/
def getTotalResultsCountTrace (st : PubMed) (query : String) : List Request :=
  [getTotalResultsCountRequest st query]

/-- The return value of `PubMed.getTotalResultsCount`:
`int(response.get("esearchresult", {}).get("count"))` — the count field
of the response, not the length of its id list. -/
def getTotalResultsCountResult (resp : ESearchJson) : Nat :=
  resp.count

/-- The full request trace of `PubMed.query(query, max_results)`: one
esearch from `_getPubMedData`, then one efetch per window in window
order. -/
def queryTrace (st : PubMed) (query : String) (max_results : Nat)
    (query_data : SessionHandle) : List Request :=
  getPubMedDataRequest st query max_results ::
    (queryWindows max_results).map
      (fun w => getArticlesEnvRequest st query_data w.1 w.2)

/-- The state effect of one `PubMed._get` call that passes the rate check at time
`now` and receives the given HTTP status: the busy-wait loop's check
prunes `self._requestsMade`; `response.raise_for_status()` raises exactly
for statuses in [400, 600) (modelled: `400 ≤ status`), in which case the
timestamp append below it is never reached; on success the timestamp is
appended.  Returns the new state and whether the call succeeded. -/
def runGetState (st : PubMed) (now status : Nat) : PubMed × Bool :=
  let pruned := pruneRequests now st.requestsMade
  if 400 ≤ status then
    ({ st with requestsMade := pruned }, false)
  else
    ({ st with requestsMade := pruned ++ [now] }, true)

/-- `PubMed.getTotalResultsCount` as a state transformer: one `_get`
(which can raise), then the count field of the JSON response. -/
def runGetTotalResultsCount (st : PubMed) (now status : Nat) (resp : ESearchJson) :
    PubMed × Option Nat :=
  let r := runGetState st now status
  (r.1, if r.2 then some (getTotalResultsCountResult resp) else none)

/-- `PubMed.query` as a state transformer (transport succeeding, the
response oracle `docs` giving each window's parsed efetch body, keyed by
the window's start index): one `_get` for `_getPubMedData`, whose token
extraction can raise before `self.query_data` is assigned; then one
`_get` per window; finally `self.articles` is assigned the concatenated
record streams. -/
def runQuery (st : PubMed) (now : Nat) (_query : String) (max_results : Nat)
    (searchResp : SearchXml) (docs : Nat → XmlTree) : PubMed × Option (List Record) :=
  let st1 := (runGetState st now 200).1
  match sessionExtract searchResp with
  | .error _ => (st1, none)
  | .ok sess =>
    let st2 := { st1 with query_data := some sess }
    let ws := queryWindows max_results
    let st3 := ws.foldl (fun s _ => (runGetState s now 200).1) st2
    let arts := (ws.map (fun w => getArticlesEnvYield (docs w.1))).flatten
    ({ st3 with articles := arts }, some arts)

/-- One public call on a `PubMed` object, with the oracle values it
consumes. -/
inductive ApiCall where
  | callQuery (now : Nat) (query : String) (max_results : Nat)
      (resp : SearchXml) (docs : Nat → XmlTree)
  | callCount (now status : Nat) (query : String) (resp : ESearchJson)
  | callGet (now status : Nat)

/-- The state reached after one call. -/
def apiStep (st : PubMed) : ApiCall → PubMed
  | .callQuery now query max_results resp docs =>
      (runQuery st now query max_results resp docs).1
  | .callCount now status _ resp => (runGetTotalResultsCount st now status resp).1
  | .callGet now status => (runGetState st now status).1

/-- The state reached after a sequence of calls. -/
def apiRun (st : PubMed) (calls : List ApiCall) : PubMed :=
  calls.foldl apiStep st

/-- A client constructed with the default `tool`/`email` and no API key. -/
def sampleSt : PubMed := PubMed.init "my_tool" "my_email@example.com" none

/-- A concrete session handle for witnesses. -/
def sampleSess : SessionHandle := { query_key := "1", WebEnv := "NCID_1" }

/-- A concrete parsed efetch body holding one book element followed by
one article element in document order. -/
def sampleRoot : XmlTree :=
  .elem "PubmedArticleSet" [.elem "PubmedBookArticle" [], .elem "PubmedArticle" []]

/-- Updating a key makes it readable: `d[k] = v` then `d.get(k)` is `v`. -/
theorem dictGet_dictSet_self (d : Params) (k : String) (v : Val) :
    dictGet (dictSet d k v) k = some v := by
  induction d with
  | nil => simp [dictSet, dictGet]
  | cons hd tl ih =>
    by_cases h : hd.1 = k
    · simp [dictSet, dictGet, h]
    · simp [dictSet, dictGet, h, ih]

/-- Updating one key leaves every other key's lookup unchanged. -/
theorem dictGet_dictSet_ne (d : Params) (k k' : String) (v : Val)
    (hne : k' ≠ k) :
    dictGet (dictSet d k v) k' = dictGet d k' := by
  have hkk' : ¬ (k = k') := fun hc => hne hc.symm
  induction d with
  | nil => simp [dictSet, dictGet, hkk']
  | cons hd tl ih =>
    by_cases h : hd.1 = k
    · have h2 : ¬ (hd.1 = k') := by rw [h]; exact hkk'
      simp [dictSet, dictGet, h, hkk', h2]
    · simp only [dictSet, dictGet, if_neg h]
      by_cases h' : hd.1 = k'
      · simp [h']
      · simp [h', ih]

/-- Pruning a batch of identical timestamps keeps all or none. -/
theorem pruneRequests_replicate (now t n : Nat) :
    pruneRequests now (List.replicate n t)
      = if now < t + 1000 then List.replicate n t else [] := by
  induction n with
  | zero => simp [pruneRequests]
  | succ m ih =>
    by_cases h : now < t + 1000
    · simp only [pruneRequests, List.replicate_succ, List.filter_cons] at *
      simp [h, ih]
    · simp only [pruneRequests, List.replicate_succ, List.filter_cons] at *
      simp [h, ih]

theorem split_range_length (mx : Nat) :
    (split_range mx).length = (mx + 9999) / 10000 := by
  simp [split_range]

theorem split_range_getElem (mx i : Nat) (hi : i < (split_range mx).length) :
    (split_range mx)[i] = (10000 * i, min (10000 * i + 10000) mx) := by
  simp [split_range]

/-- Index arithmetic for `split_range`: within bounds the window starts
strictly below `mx`, and `⌈mx / 10000⌉` windows reach `mx`. -/
theorem split_range_index_lt (mx i : Nat) (hi : i < (mx + 9999) / 10000) :
    10000 * i < mx := by
  have h1 := Nat.div_add_mod (mx + 9999) 10000
  have h2 := Nat.mod_lt (mx + 9999) (y := 10000) (by omega)
  omega

theorem split_range_last_covers (mx : Nat) :
    mx ≤ 10000 * ((mx + 9999) / 10000) := by
  have h1 := Nat.div_add_mod (mx + 9999) 10000
  have h2 := Nat.mod_lt (mx + 9999) (y := 10000) (by omega)
  omega

theorem split_range_index_ge (mx i : Nat) (hlt : 10000 * i < mx) :
    i < (mx + 9999) / 10000 := by
  have h1 := Nat.div_add_mod (mx + 9999) 10000
  have h2 := Nat.mod_lt (mx + 9999) (y := 10000) (by omega)
  omega

/-- C1, counterexample: with the default ceiling of 3 and exactly 3
recorded timestamps younger than 1 second, `_exceededRateLimit` returns
`false` (the check is strict `>`), so a 4th request's busy-wait loop
exits at once — the claimed "a 4th-and-later request whose check occurs
while 3 or more recorded timestamps are younger than 1 second is not
allowed to proceed immediately" is false on the code. -/
theorem rateLimiter_lets_fourth_request_through :
    (pruneRequests 0 [0, 0, 0]).length = 3 ∧
    exceededRateLimit 3 0 [0, 0, 0] = false := by decide

/-- C1, amended: the busy-wait loop of `_get` blocks exactly while
*strictly more* than the ceiling's worth of timestamps lie in the
trailing 1-second window.  After `R` instantaneous requests at time `t`
the `(R+1)`-th request's check passes immediately; after `R+1` recorded
timestamps the next check blocks at every instant of `[t, t + 1000)` and
first passes at `t + 1000`, when the oldest timestamp falls outside the
window. -/
theorem rateLimiter_blocks_only_above_ceiling (limit t now : Nat)
    (h : now < t + 1000) :
    exceededRateLimit limit now (List.replicate limit t) = false ∧
    exceededRateLimit limit now (List.replicate (limit + 1) t) = true ∧
    exceededRateLimit limit (t + 1000) (List.replicate (limit + 1) t) = false := by
  refine ⟨?_, ?_, ?_⟩ <;>
    simp [exceededRateLimit, pruneRequests_replicate, h]

/-- C1, witness: the amended rate-limiter behaviour at ceiling 3,
timestamps at 0 and a check at 500 ms. -/
theorem rateLimiter_blocks_only_above_ceiling_witness :
    500 < 0 + 1000 ∧
    (exceededRateLimit 3 500 (List.replicate 3 0) = false ∧
     exceededRateLimit 3 500 (List.replicate (3 + 1) 0) = true ∧
     exceededRateLimit 3 (0 + 1000) (List.replicate (3 + 1) 0) = false) :=
  ⟨by decide, rateLimiter_blocks_only_above_ceiling 3 0 500 (by decide)⟩

/-- C2, counterexample: `query` passes `max=max_results` to
`split_range`, so for `max_results = 30000 > 20000` the window list
reaches `(20000, 30000)` — it is not derived from the unused 20,000
default, and indices at and beyond 20,000 are fetched, not truncated. -/
theorem queryWindows_not_capped_at_20000 :
    queryWindows 30000 = [(0, 10000), (10000, 20000), (20000, 30000)] := by decide

/-- C2, amended: `query` overrides `split_range`'s 20,000 default with
`max_results`, so for every `max_results > 20000` every index below
`max_results` — including those at and beyond 20,000 — lies in some
fetched window: nothing is truncated. -/
theorem query_fetches_beyond_20000 (max_results n : Nat)
    (h1 : 20000 < max_results) (h2 : n < max_results) :
    covers (queryWindows max_results) n = true := by
  have hgt : 10000 < max_results := by omega
  have hd := Nat.div_add_mod n 10000
  have hm := Nat.mod_lt n (y := 10000) (by omega)
  have hi : n / 10000 < (max_results + 9999) / 10000 :=
    split_range_index_ge max_results (n / 10000) (by omega)
  simp only [queryWindows, if_pos hgt, covers, split_range, List.any_eq_true,
    List.mem_map, List.mem_range]
  refine ⟨(10000 * (n / 10000), min (10000 * (n / 10000) + 10000) max_results),
    ⟨n / 10000, hi, rfl⟩, ?_⟩
  simp only [Bool.and_eq_true, decide_eq_true_eq]
  omega

/-- C2, witness: with `max_results = 30000`, index 25000 (beyond the
claimed 20,000 cap) is covered by a window. -/
theorem query_fetches_beyond_20000_witness :
    20000 < 30000 ∧ 25000 < 30000 ∧
    covers (queryWindows 30000) 25000 = true :=
  ⟨by decide, by decide, query_fetches_beyond_20000 30000 25000 (by decide) (by decide)⟩

/-- C3 (code bug), evaluated at the failing input: for the second window
`(10000, 20000)` of `query(max_results=20000)`, the efetch request built
by `_getArticlesEnv` carries `retmax = 20000` (the window's `end` bound,
straight from `parameters["retmax"] = end` in the source), not the
claimed `retmax = end − start = 10000`; `retstart` and the session
tokens are as claimed. -/
theorem fetch_retmax_is_end_bound :
    (10000, 20000) ∈ queryWindows 20000 ∧
    dictGet (getArticlesEnvRequest sampleSt sampleSess 10000 20000).params "retmax"
      = some (.num 20000) ∧
    dictGet (getArticlesEnvRequest sampleSt sampleSess 10000 20000).params "retmax"
      ≠ some (.num (20000 - 10000)) ∧
    dictGet (getArticlesEnvRequest sampleSt sampleSess 10000 20000).params "retstart"
      = some (.num 10000) ∧
    dictGet (getArticlesEnvRequest sampleSt sampleSess 10000 20000).params "query_key"
      = some (.str sampleSess.query_key) ∧
    dictGet (getArticlesEnvRequest sampleSt sampleSess 10000 20000).params "WebEnv"
      = some (.str sampleSess.WebEnv) := by decide

/-- C4: for every positive `max_results`, the window list `query` fetches
is a partition of `[0, max_results)`: it is non-empty, starts at 0, ends
at `max_results`, each window's `end` is the next window's `start`
(consecutive, ascending, no gaps or overlaps), and every window is
non-empty and spans at most 10,000 indices. -/
theorem query_windows_partition (max_results : Nat) (hpos : 0 < max_results) :
    queryWindows max_results ≠ [] ∧
    ((queryWindows max_results).head?.map Prod.fst) = some 0 ∧
    ((queryWindows max_results).getLast?.map Prod.snd) = some max_results ∧
    (∀ i, i + 1 < (queryWindows max_results).length →
      ((queryWindows max_results)[i]?.map Prod.snd)
        = ((queryWindows max_results)[i + 1]?.map Prod.fst)) ∧
    (∀ w ∈ queryWindows max_results, w.1 < w.2 ∧ w.2 ≤ w.1 + 10000) := by
  by_cases hgt : 10000 < max_results
  · have hL1 := Nat.div_add_mod (max_results + 9999) 10000
    have hL2 := Nat.mod_lt (max_results + 9999) (y := 10000) (by omega)
    have hlen : (queryWindows max_results).length = (max_results + 9999) / 10000 := by
      simp [queryWindows, if_pos hgt, split_range_length]
    have hLpos : 0 < (max_results + 9999) / 10000 := by omega
    refine ⟨?_, ?_, ?_, ?_, ?_⟩
    · intro hnil
      rw [hnil] at hlen
      simp at hlen
      omega
    · rw [List.head?_eq_getElem?]
      simp only [queryWindows, if_pos hgt, split_range, List.getElem?_map,
        List.getElem?_range, hLpos, if_pos]
      rfl
    · rw [List.getLast?_eq_getElem?, hlen]
      have hidx : (max_results + 9999) / 10000 - 1 < (max_results + 9999) / 10000 := by
        omega
      simp only [queryWindows, if_pos hgt, split_range, List.getElem?_map,
        List.getElem?_range, hidx, if_pos, Option.map_some]
      have hcov := split_range_last_covers max_results
      have hmin : min (10000 * ((max_results + 9999) / 10000 - 1) + 10000) max_results
          = max_results := by omega
      simp [hmin]
    · intro i hib
      rw [hlen] at hib
      have hi1 : i < (max_results + 9999) / 10000 := by omega
      have hnext := split_range_index_lt max_results (i + 1) hib
      simp only [queryWindows, if_pos hgt, split_range, List.getElem?_map,
        List.getElem?_range, hi1, hib, if_pos, Option.map_some]
      have hmin : min (10000 * i + 10000) max_results = 10000 * (i + 1) := by omega
      simp [hmin]
    · intro w hw
      simp only [queryWindows, if_pos hgt, split_range, List.mem_map,
        List.mem_range] at hw
      obtain ⟨i, hi, rfl⟩ := hw
      have := split_range_index_lt max_results i hi
      constructor
      · omega
      · omega
  · have hws : queryWindows max_results = [(0, max_results)] := by
      simp [queryWindows, if_neg hgt]
    rw [hws]
    refine ⟨by simp, by simp, by simp, ?_, ?_⟩
    · intro i hib
      simp only [List.length_singleton] at hib
      omega
    · intro w hw
      rw [List.mem_singleton] at hw
      subst hw
      exact ⟨hpos, by omega⟩

/-- C4, witness: the partition facts evaluated at `max_results = 25000`:
three windows, adjacent at indices 1 and 2, the middle window inside the
size bound. -/
theorem query_windows_partition_witness :
    0 < 25000 ∧
    (queryWindows 25000 ≠ [] ∧
     ((queryWindows 25000).head?.map Prod.fst) = some 0 ∧
     ((queryWindows 25000).getLast?.map Prod.snd) = some 25000 ∧
     ((queryWindows 25000)[1]?.map Prod.snd) = ((queryWindows 25000)[2]?.map Prod.fst) ∧
     ((10000, 20000).1 < (10000, 20000).2 ∧ (10000, 20000).2 ≤ (10000, 20000).1 + 10000)) :=
  have h := query_windows_partition 25000 (by decide)
  ⟨by decide, h.1, h.2.1, h.2.2.1,
   h.2.2.2.1 1 (by decide),
   h.2.2.2.2 (10000, 20000) (by decide)⟩

/-- C5: for every `max_results ≤ 10000`, `query` takes the single-window
branch: the request trace is exactly one esearch (from `_getPubMedData`)
followed by exactly one efetch, and that efetch carries
`retmax = max_results` and `retstart = 0`. -/
theorem query_single_search_single_fetch (st : PubMed) (query : String)
    (max_results : Nat) (query_data : SessionHandle) (h : max_results ≤ 10000) :
    queryTrace st query max_results query_data =
      [getPubMedDataRequest st query max_results,
       getArticlesEnvRequest st query_data 0 max_results] ∧
    (getPubMedDataRequest st query max_results).url = "/entrez/eutils/esearch.fcgi" ∧
    (getArticlesEnvRequest st query_data 0 max_results).url = "/entrez/eutils/efetch.fcgi" ∧
    dictGet (getArticlesEnvRequest st query_data 0 max_results).params "retmax"
      = some (.num max_results) ∧
    dictGet (getArticlesEnvRequest st query_data 0 max_results).params "retstart"
      = some (.num 0) := by
  refine ⟨?_, rfl, rfl, ?_, ?_⟩
  · simp [queryTrace, queryWindows, Nat.not_lt.2 h]
  · simp only [getArticlesEnvRequest, mkGetRequest]
    rw [dictGet_dictSet_ne _ _ _ _ (by decide),
        dictGet_dictSet_ne _ _ _ _ (by decide),
        dictGet_dictSet_self]
  · simp only [getArticlesEnvRequest, mkGetRequest]
    rw [dictGet_dictSet_ne _ _ _ _ (by decide),
        dictGet_dictSet_self]

/-- C5, witness: the single-window trace and fetch parameters at
`max_results = 5`. -/
theorem query_single_search_single_fetch_witness :
    5 ≤ 10000 ∧
    (queryTrace sampleSt "cancer" 5 sampleSess =
      [getPubMedDataRequest sampleSt "cancer" 5,
       getArticlesEnvRequest sampleSt sampleSess 0 5] ∧
     (getPubMedDataRequest sampleSt "cancer" 5).url = "/entrez/eutils/esearch.fcgi" ∧
     (getArticlesEnvRequest sampleSt sampleSess 0 5).url = "/entrez/eutils/efetch.fcgi" ∧
     dictGet (getArticlesEnvRequest sampleSt sampleSess 0 5).params "retmax"
       = some (.num 5) ∧
     dictGet (getArticlesEnvRequest sampleSt sampleSess 0 5).params "retstart"
       = some (.num 0)) :=
  ⟨by decide, query_single_search_single_fetch sampleSt "cancer" 5 sampleSess (by decide)⟩

/-- C6: for every parsed window response, the records `_getArticlesEnv`
yields are exactly the decoded `PubmedArticle` elements in document
order followed by the decoded `PubmedBookArticle` elements in document
order: filtering the yield by kind recovers each traversal, and any
book-kind position is strictly after every article-kind position (the
two kinds are never interleaved). -/
theorem window_yield_articles_then_books (root : XmlTree) :
    (getArticlesEnvYield root).filter isArticleRec
        = (iterTag "PubmedArticle" root).map Record.article ∧
    (getArticlesEnvYield root).filter isBookRec
        = (iterTag "PubmedBookArticle" root).map Record.book ∧
    ∀ i j : Nat, ∀ hi : i < (getArticlesEnvYield root).length,
      ∀ hj : j < (getArticlesEnvYield root).length,
      isBookRec ((getArticlesEnvYield root).get ⟨i, hi⟩) = true →
      isArticleRec ((getArticlesEnvYield root).get ⟨j, hj⟩) = true → j < i := by
  refine ⟨?_, ?_, ?_⟩
  · simp [getArticlesEnvYield, List.filter_append, List.filter_map,
      Function.comp_def, isArticleRec, isBookRec]
  · simp [getArticlesEnvYield, List.filter_append, List.filter_map,
      Function.comp_def, isArticleRec, isBookRec]
  · intro i j hi hj hbi haj
    have hlen : (getArticlesEnvYield root).length
        = ((iterTag "PubmedArticle" root).map Record.article).length
          + ((iterTag "PubmedBookArticle" root).map Record.book).length := by
      simp [getArticlesEnvYield]
    have hA : ((iterTag "PubmedArticle" root).map Record.article).length ≤ i := by
      by_contra hc
      push_neg at hc
      have : (getArticlesEnvYield root).get ⟨i, hi⟩
          = ((iterTag "PubmedArticle" root).map Record.article).get ⟨i, hc⟩ := by
        simp only [getArticlesEnvYield, List.get_eq_getElem]
        exact List.getElem_append_left hc
      rw [this] at hbi
      have hmem : ((iterTag "PubmedArticle" root).map Record.article).get ⟨i, hc⟩
          ∈ (iterTag "PubmedArticle" root).map Record.article :=
        List.get_mem _ _ _
      rcases List.mem_map.1 hmem with ⟨e, _, he⟩
      rw [← he] at hbi
      simp [isBookRec] at hbi
    have hB : j < ((iterTag "PubmedArticle" root).map Record.article).length := by
      by_contra hc
      push_neg at hc
      have : (getArticlesEnvYield root).get ⟨j, hj⟩
          = ((iterTag "PubmedBookArticle" root).map Record.book).get
              ⟨j - ((iterTag "PubmedArticle" root).map Record.article).length, by
                simp only [getArticlesEnvYield, List.length_append] at hj
                omega⟩ := by
        simp only [getArticlesEnvYield, List.get_eq_getElem]
        exact List.getElem_append_right hc
      rw [this] at haj
      have hmem : ((iterTag "PubmedBookArticle" root).map Record.book).get
          ⟨j - ((iterTag "PubmedArticle" root).map Record.article).length, by
            simp only [getArticlesEnvYield, List.length_append] at hj
            omega⟩
          ∈ (iterTag "PubmedBookArticle" root).map Record.book :=
        List.get_mem _ _ _
      rcases List.mem_map.1 hmem with ⟨e, _, he⟩
      rw [← he] at haj
      simp [isArticleRec] at haj
    omega

/-- C6, witness: on a response holding one book element before one
article element, the yield is the article record then the book record,
and for the book position 1 and article position 0 the ordering fact is
`0 < 1`. -/
theorem window_yield_articles_then_books_witness :
    getArticlesEnvYield sampleRoot =
      [Record.article (.elem "PubmedArticle" []),
       Record.book (.elem "PubmedBookArticle" [])] ∧
    (0 : Nat) < 1 :=
  ⟨rfl, (window_yield_articles_then_books sampleRoot).2.2 1 0
    (by simp [getArticlesEnvYield, sampleRoot, iterTag, iterTagList])
    (by simp [getArticlesEnvYield, sampleRoot, iterTag, iterTagList])
    (by simp [getArticlesEnvYield, sampleRoot, iterTag, iterTagList, isBookRec])
    (by simp [getArticlesEnvYield, sampleRoot, iterTag, iterTagList, isArticleRec])⟩

/-- C7: `_getPubMedData` sends one esearch request with
`usehistory = "y"` and `retmax = max_results` in XML output format
(`retmode = "xml"`); from the parsed response it takes the first
`QueryKey` token and the first `WebEnv` token, and if either list of
tokens is empty the `[0]` subscript fails — the `ProtocolError` of the
spec's taxonomy. -/
theorem session_establish_spec (st : PubMed) (query : String) (max_results : Nat)
    (resp : SearchXml) :
    (getPubMedDataRequest st query max_results).url = "/entrez/eutils/esearch.fcgi" ∧
    (getPubMedDataRequest st query max_results).output = "xml" ∧
    dictGet (getPubMedDataRequest st query max_results).params "usehistory"
      = some (.str "y") ∧
    dictGet (getPubMedDataRequest st query max_results).params "retmax"
      = some (.num max_results) ∧
    dictGet (getPubMedDataRequest st query max_results).params "retmode"
      = some (.str "xml") ∧
    (∀ qk qks we wes, resp.queryKeys = qk :: qks → resp.webEnvs = we :: wes →
      sessionExtract resp = .ok { query_key := qk, WebEnv := we }) ∧
    ((resp.queryKeys = [] ∨ resp.webEnvs = []) →
      sessionExtract resp = .error .protocolError) := by
  refine ⟨rfl, rfl, ?_, ?_, ?_, ?_, ?_⟩
  · simp only [getPubMedDataRequest, mkGetRequest]
    rw [dictGet_dictSet_ne _ _ _ _ (by decide),
        dictGet_dictSet_ne _ _ _ _ (by decide),
        dictGet_dictSet_self]
  · simp only [getPubMedDataRequest, mkGetRequest]
    rw [dictGet_dictSet_ne _ _ _ _ (by decide),
        dictGet_dictSet_self]
  · simp only [getPubMedDataRequest, mkGetRequest]
    rw [dictGet_dictSet_self]
  · intro qk qks we wes hq hw
    simp [sessionExtract, hq, hw]
  · intro hor
    rcases hor with hq | hw
    · simp [sessionExtract, hq]
    · cases hq : resp.queryKeys with
      | nil => simp [sessionExtract, hq]
      | cons a as => simp [sessionExtract, hq, hw]

/-- C7, witness: the request parameters at a concrete state, the
extraction on a response holding both tokens, and the failure on a
response missing the query-key token. -/
theorem session_establish_spec_witness :
    dictGet (getPubMedDataRequest sampleSt "cancer" 100).params "usehistory"
      = some (.str "y") ∧
    sessionExtract { queryKeys := ["1"], webEnvs := ["NCID_1"] }
      = .ok { query_key := "1", WebEnv := "NCID_1" } ∧
    sessionExtract { queryKeys := [], webEnvs := ["NCID_1"] }
      = .error .protocolError :=
  ⟨(session_establish_spec sampleSt "cancer" 100
      { queryKeys := ["1"], webEnvs := ["NCID_1"] }).2.2.1,
   (session_establish_spec sampleSt "cancer" 100
      { queryKeys := ["1"], webEnvs := ["NCID_1"] }).2.2.2.2.2.1 "1" [] "NCID_1" [] rfl rfl,
   (session_establish_spec sampleSt "cancer" 100
      { queryKeys := [], webEnvs := ["NCID_1"] }).2.2.2.2.2.2 (Or.inl rfl)⟩

/-- C8: `getTotalResultsCount` makes exactly one request — an esearch
with `retmax = 1` and the query as `term`, in the default JSON output —
and returns the `count` field of the response, independent of the id
list; its trace contains no efetch call. -/
theorem total_results_count_spec (st : PubMed) (query : String) (resp : ESearchJson) :
    getTotalResultsCountTrace st query = [getTotalResultsCountRequest st query] ∧
    (getTotalResultsCountRequest st query).url = "/entrez/eutils/esearch.fcgi" ∧
    (getTotalResultsCountRequest st query).output = "json" ∧
    dictGet (getTotalResultsCountRequest st query).params "retmax" = some (.num 1) ∧
    dictGet (getTotalResultsCountRequest st query).params "term" = some (.str query) ∧
    getTotalResultsCountResult resp = resp.count ∧
    getTotalResultsCountResult { resp with idlist := [] }
      = getTotalResultsCountResult resp := by
  refine ⟨rfl, rfl, rfl, ?_, ?_, rfl, rfl⟩
  · simp only [getTotalResultsCountRequest, mkGetRequest]
    rw [dictGet_dictSet_ne _ _ _ _ (by decide),
        dictGet_dictSet_self]
  · simp only [getTotalResultsCountRequest, mkGetRequest]
    rw [dictGet_dictSet_ne _ _ _ _ (by decide),
        dictGet_dictSet_ne _ _ _ _ (by decide),
        dictGet_dictSet_self]

/-- The per-window `_get` steps of `runQuery` never touch the parameter
template. -/
theorem foldl_runGetState_parameters (ws : List (Nat × Nat)) (now : Nat) (s : PubMed) :
    (ws.foldl (fun s _ => (runGetState s now 200).1) s).parameters = s.parameters := by
  induction ws generalizing s with
  | nil => rfl
  | cons w ws ih =>
    rw [List.foldl_cons, ih]
    simp [runGetState]

/-- C9: the default parameter template held in `self.parameters` is
copied (never aliased) by every request-building method, so it is
unchanged by any sequence of `query`, `getTotalResultsCount` and raw
`_get` calls: after any call sequence it equals its value at
construction. -/
theorem parameters_template_immutable (st : PubMed) (calls : List ApiCall) :
    (apiRun st calls).parameters = st.parameters := by
  induction calls generalizing st with
  | nil => rfl
  | cons c cs ih =>
    have hstep : (apiStep st c).parameters = st.parameters := by
      cases c with
      | callQuery now query max_results resp docs =>
        simp only [apiStep, runQuery]
        cases hx : sessionExtract resp with
        | error e => simp [hx, runGetState]
        | ok sess =>
          simp only [hx]
          rw [foldl_runGetState_parameters]
          simp [runGetState]
      | callCount now status query resp =>
        simp only [apiStep, runGetTotalResultsCount, runGetState]
        by_cases h : 400 ≤ status <;> simp [h]
      | callGet now status =>
        simp only [apiStep, runGetState]
        by_cases h : 400 ≤ status <;> simp [h]
    rw [apiRun, List.foldl_cons, ← apiRun, ih, hstep]

/-- C10: in `_get` the timestamp append sits after
`response.raise_for_status()`, which raises exactly for statuses in
[400, 600): a failing call leaves `self._requestsMade` equal to its
pruned value — a sub-list of the old list, so no new timestamp is
recorded — while a succeeding call appends its timestamp. -/
theorem failed_request_not_counted (st : PubMed) (now status : Nat) :
    (400 ≤ status →
      (runGetState st now status).1.requestsMade = pruneRequests now st.requestsMade ∧
      (runGetState st now status).1.requestsMade.Sublist st.requestsMade ∧
      (runGetState st now status).2 = false) ∧
    (status < 400 →
      (runGetState st now status).1.requestsMade
        = pruneRequests now st.requestsMade ++ [now] ∧
      (runGetState st now status).2 = true) := by
  constructor
  · intro h
    refine ⟨by simp [runGetState, h], ?_, by simp [runGetState, h]⟩
    simp only [runGetState, if_pos h]
    exact List.filter_sublist _
  · intro h
    have h' : ¬ 400 ≤ status := by omega
    exact ⟨by simp [runGetState, h'], by simp [runGetState, h']⟩

/-- C10, witness: a 404 response at a state with one recorded timestamp
appends nothing. -/
theorem failed_request_not_counted_witness :
    400 ≤ 404 ∧
    ((runGetState { sampleSt with requestsMade := [5] } 10 404).1.requestsMade
        = pruneRequests 10 ({ sampleSt with requestsMade := [5] } : PubMed).requestsMade ∧
     (runGetState { sampleSt with requestsMade := [5] } 10 404).1.requestsMade.Sublist
        ({ sampleSt with requestsMade := [5] } : PubMed).requestsMade ∧
     (runGetState { sampleSt with requestsMade := [5] } 10 404).2 = false) :=
  ⟨by decide,
   (failed_request_not_counted { sampleSt with requestsMade := [5] } 10 404).1 (by decide)⟩
